import Mathlib

/-!
Verification development for the bitrix24-wallboard1 backend.

The repository contains several near-identical variants of the webhook
event handler `app.post("/bitrix/events")`:

* `src/server.js`, first document (lines 1-454): exact-name event branches,
  `answered` counted at `OnVoximplantCallConnected`, `assumedConnected`
  hardwired to `false` at `OnVoximplantCallEnd`.  Embedded below as `v1Step`.
* `src/server.js`, second document (lines 455-1930, the daily-metrics
  variant): record created on any event, `wasAnswered` flag, work-hours
  gate.  Embedded below as `dStep`.
* `src/unnamed/part_000`: like the daily-metrics variant but without the
  work-hours gate.  Embedded below as `p0Step`.
* `src/unnamed/part_001`: exact-name branches, callId fallback
  `unknown-<Date.now()>`.  Embedded below as `p1Step`.

JavaScript numbers that hold counters are modelled as `Int` (they are
incremented and clamp-decremented, never fractional in these programs);
JS `Map`s as association lists with unique keys; absent/`null` fields as
`Option`; `Date.now()` as an explicit `now : Nat` argument.
-/

namespace Wallboard

/-- Association-list lookup, mirroring JS `Map.get`. -/
def alGet {α : Type} (m : List (String × α)) (k : String) : Option α :=
  match m with
  | [] => none
  | (k', v) :: rest => if k' = k then some v else alGet rest k

/-- Association-list insert/update, mirroring JS `Map.set` (unique keys). -/
def alSet {α : Type} (m : List (String × α)) (k : String) (v : α) : List (String × α) :=
  match m with
  | [] => [(k, v)]
  | (k', v') :: rest => if k' = k then (k, v) :: rest else (k', v') :: alSet rest k v

/-- Association-list removal, mirroring JS `Map.delete`. -/
def alDelete {α : Type} (m : List (String × α)) (k : String) : List (String × α) :=
  match m with
  | [] => []
  | (k', v) :: rest => if k' = k then alDelete rest k else (k', v) :: alDelete rest k

/-- Update the value at `k` in place when present (JS mutates the object
returned by `Map.get`). -/
def alModify {α : Type} (m : List (String × α)) (k : String) (f : α → α) : List (String × α) :=
  match alGet m k with
  | some v => alSet m k (f v)
  | none => m

/-- Char-list prefix test, used to implement JS `String.includes`. -/
def listStartsWith : List Char → List Char → Bool
  | [], _ => true
  | _ :: _, [] => false
  | a :: as, b :: bs => a == b && listStartsWith as bs

/-- Char-list infix test, used to implement JS `String.includes`. -/
def listContainsSeg (p : List Char) : List Char → Bool
  | [] => listStartsWith p []
  | b :: bs => listStartsWith p (b :: bs) || listContainsSeg p bs

/-- JS `s.includes(pat)`. -/
def strIncludes (s pat : String) : Bool := listContainsSeg pat.toList s.toList

/-- JS `s.toUpperCase()` (the event names and field values involved are ASCII). -/
def upStr (s : String) : String := ⟨s.toList.map Char.toUpper⟩

/-- JS `s.toLowerCase()`. -/
def downStr (s : String) : String := ⟨s.toList.map Char.toLower⟩

/-- JS `s.trim()`. -/
def jsTrim (s : String) : String :=
  ⟨((s.toList.dropWhile Char.isWhitespace).reverse.dropWhile Char.isWhitespace).reverse⟩

/-- First field of `fields` present in `data` with a truthy (non-empty) value:
models a JS `data.A || data.B || ...` chain over string-valued fields. -/
def probeTruthy (data : List (String × String)) : List String → Option String
  | [] => none
  | f :: fs =>
    match alGet data f with
    | some v => if v = "" then probeTruthy data fs else some v
    | none => probeTruthy data fs

/-- First field of `fields` whose trimmed value is non-empty, returned trimmed:
models the `extract*` helper loops of part_000 and the daily-metrics variant
(`if (data[field] && data[field].toString().trim()) return ...trim()`). -/
def probeTrim (data : List (String × String)) : List String → Option String
  | [] => none
  | f :: fs =>
    match alGet data f with
    | some v => if jsTrim v = "" then probeTrim data fs else some (jsTrim v)
    | none => probeTrim data fs

/-- Call direction. -/
inductive Dir : Type
  | IN : Dir
  | OUT : Dir
deriving DecidableEq, Repr

/-- Direction resolution used by every variant:
`String(directionRaw).toUpperCase().includes("OUT") ? "OUT" : "IN"`. -/
def jsDirection (raw : String) : Dir :=
  if strIncludes (upStr raw) "OUT" then .OUT else .IN

/-- A webhook delivery after `pickEventName` / `pickEventData`: the resolved
event name and the payload object (modelled as a flat key-value record; the
`FIELDS.X` / `data.X` access paths of the source appear as dotted keys). -/
structure RawEvent where
  name : String
  data : List (String × String)
deriving DecidableEq, Repr

/-- `metrics.incoming` of server.js: `{ inProgress, answered, missed }`. -/
structure InCounters where
  inProgress : Int
  answered : Int
  missed : Int
deriving DecidableEq, Repr

/-- `metrics.outgoing` of server.js: `{ inProgress, answered, cancelled }`. -/
structure OutCounters where
  inProgress : Int
  answered : Int
  cancelled : Int
deriving DecidableEq, Repr

/-- The aggregate `metrics` object of server.js and part_000. -/
structure Metrics where
  incoming : InCounters
  outgoing : OutCounters
  missedDroppedAbandoned : Int
deriving DecidableEq, Repr

/-- `clampDown(obj, key)`: `obj[key] = Math.max(0, obj[key] - 1)`
(src/server.js lines 170-173 and 751-754, src/unnamed/part_000 lines 127-130). -/
def clampDown (x : Int) : Int := max 0 (x - 1)

/-- `metrics.<direction>.inProgress += 1`. -/
def bumpInProgress (m : Metrics) (d : Dir) : Metrics :=
  match d with
  | .IN => { m with incoming := { m.incoming with inProgress := m.incoming.inProgress + 1 } }
  | .OUT => { m with outgoing := { m.outgoing with inProgress := m.outgoing.inProgress + 1 } }

/-- `clampDown(metrics.<direction>, "inProgress")`. -/
def clampInProgress (m : Metrics) (d : Dir) : Metrics :=
  match d with
  | .IN => { m with incoming := { m.incoming with inProgress := clampDown m.incoming.inProgress } }
  | .OUT => { m with outgoing := { m.outgoing with inProgress := clampDown m.outgoing.inProgress } }

/-- `metrics.<direction>.answered += 1` (src/server.js lines 330 and 337,
"Treat as answered"). -/
def answerCount (m : Metrics) (d : Dir) : Metrics :=
  match d with
  | .IN => { m with incoming := { m.incoming with answered := m.incoming.answered + 1 } }
  | .OUT => { m with outgoing := { m.outgoing with answered := m.outgoing.answered + 1 } }

/-- The end-of-call missed/cancelled counter block shared by the first
server.js document (lines 362-375) and part_000 (lines 450-464):
`missed`/`missedDroppedAbandoned` for inbound, `cancelled` for outbound. -/
def missTally (m : Metrics) (d : Dir) : Metrics :=
  match d with
  | .IN => { m with
      incoming := { m.incoming with missed := m.incoming.missed + 1 },
      missedDroppedAbandoned := m.missedDroppedAbandoned + 1 }
  | .OUT => { m with
      outgoing := { m.outgoing with cancelled := m.outgoing.cancelled + 1 } }

/-- All-zero metrics, the boot state of each variant. -/
def metricsInit : Metrics :=
  { incoming := { inProgress := 0, answered := 0, missed := 0 }
    outgoing := { inProgress := 0, answered := 0, cancelled := 0 }
    missedDroppedAbandoned := 0 }

/-! ## Variant 1: src/server.js, first document (lines 160-418) -/

/-- A `liveCalls` entry of variant 1:
`{direction, agentId, startedAt, from, to}` (src/server.js lines 306-312). -/
structure V1Call where
  direction : Dir
  agentId : Option String
  startedAt : Nat
  fromNum : Option String
  toNum : Option String
deriving DecidableEq, Repr

/-- An `agents` entry of variant 1 (src/server.js lines 178-186). -/
structure V1Agent where
  agentId : String
  name : String
  onCallNow : Bool
  inboundAnswered : Int
  inboundMissed : Int
  outboundAnswered : Int
  outboundMissed : Int
deriving DecidableEq, Repr

/-- The mutable wallboard state of variant 1. -/
structure V1State where
  metrics : Metrics
  liveCalls : List (String × V1Call)
  agents : List (String × V1Agent)
deriving DecidableEq, Repr

/-- Variant-1 boot state. -/
def v1Init : V1State := { metrics := metricsInit, liveCalls := [], agents := [] }

/-- `ensureAgent(agentId, name)` of variant 1 (src/server.js lines 175-191):
creates the record with `name: name || ""`, else updates a differing non-empty
name.  Returns the updated directory. -/
def v1EnsureAgent (ags : List (String × V1Agent)) (aid : String) (nm : Option String) :
    List (String × V1Agent) :=
  match alGet ags aid with
  | none =>
      alSet ags aid
        { agentId := aid, name := nm.getD "", onCallNow := false,
          inboundAnswered := 0, inboundMissed := 0, outboundAnswered := 0, outboundMissed := 0 }
  | some ag =>
      match nm with
      | some n => if n = "" then ags else if ag.name = n then ags else alSet ags aid { ag with name := n }
      | none => ags

/-- Candidate fields for `callId` in variant 1 (src/server.js lines 272-273). -/
def v1CallIdFields : List String :=
  ["CALL_ID", "callId", "call_id", "FIELDS.CALL_ID", "FIELDS.callId"]

/-- Candidate fields for `directionRaw` in variant 1 (src/server.js lines 275-276). -/
def v1DirectionFields : List String :=
  ["DIRECTION", "direction", "callDirection", "FIELDS.DIRECTION"]

/-- Candidate fields for `from` in variant 1 (src/server.js lines 281-282). -/
def v1FromFields : List String :=
  ["FROM", "from", "CALLER_ID", "FIELDS.FROM", "FIELDS.CALLER_ID"]

/-- Candidate fields for `to` in variant 1 (src/server.js lines 284-285). -/
def v1ToFields : List String :=
  ["TO", "to", "PHONE_NUMBER", "FIELDS.TO", "FIELDS.PHONE_NUMBER"]

/-- Candidate fields for `agentId` in variant 1 (src/server.js lines 287-288). -/
def v1AgentIdFields : List String :=
  ["USER_ID", "userId", "agentId", "FIELDS.USER_ID", "FIELDS.userId"]

/-- Candidate fields for `agentName` in variant 1 (src/server.js lines 290-291). -/
def v1AgentNameFields : List String :=
  ["USER_NAME", "userName", "agentName", "FIELDS.USER_NAME", "FIELDS.userName"]

/-- Shared body of the `OnVoximplantCallInit` branch and the
create-if-missing half of the `OnVoximplantCallStart` branch of variant 1
(src/server.js lines 301-321 and 393-414): bump `inProgress`, insert the
live-call record, mark the agent on-call. -/
def v1CreateCall (now : Nat) (s : V1State) (callId : String) (direction : Dir)
    (agentId agentName fromNum toNum : Option String) : V1State :=
  let m := bumpInProgress s.metrics direction
  let lcs := alSet s.liveCalls callId
    { direction := direction, agentId := agentId, startedAt := now,
      fromNum := fromNum, toNum := toNum }
  let ags :=
    match agentId with
    | some a => alModify (v1EnsureAgent s.agents a agentName) a
        (fun ag => { ag with onCallNow := true })
    | none => s.agents
  { metrics := m, liveCalls := lcs, agents := ags }

/-- One delivery to `app.post("/bitrix/events")` of variant 1
(src/server.js lines 261-418).  `now` models `Date.now()`. -/
def v1Step (now : Nat) (s : V1State) (e : RawEvent) : V1State :=
  match probeTruthy e.data v1CallIdFields with
  | none => s
  | some callId =>
    let direction := jsDirection ((probeTruthy e.data v1DirectionFields).getD "")
    let fromNum := probeTruthy e.data v1FromFields
    let toNum := probeTruthy e.data v1ToFields
    let agentId := probeTruthy e.data v1AgentIdFields
    let agentName := probeTruthy e.data v1AgentNameFields
    if e.name = "OnVoximplantCallInit" then
      v1CreateCall now s callId direction agentId agentName fromNum toNum
    else if e.name = "OnVoximplantCallConnected" then
      -- "Treat as answered" (src/server.js lines 323-346)
      let lc? := alGet s.liveCalls callId
      let dir := match lc? with
        | some lc => lc.direction
        | none => direction
      let m := answerCount (clampInProgress s.metrics dir) dir
      let ags := match lc? with
        | some lc =>
          match lc.agentId with
          | some a =>
            let g := v1EnsureAgent s.agents a agentName
            match dir with
            | .IN => alModify g a (fun ag => { ag with inboundAnswered := ag.inboundAnswered + 1 })
            | .OUT => alModify g a (fun ag => { ag with outboundAnswered := ag.outboundAnswered + 1 })
          | none => s.agents
        | none => s.agents
      { s with metrics := m, agents := ags }
    else if e.name = "OnVoximplantCallEnd" then
      match alGet s.liveCalls callId with
      | none =>
        -- "If we never saw init, still try to clamp" (src/server.js lines 350-356)
        { s with metrics := clampInProgress s.metrics direction }
      | some lc =>
        -- `assumedConnected` is hardwired `false` in the source (line 360),
        -- so the missed/cancelled block below runs unconditionally.
        let m := missTally s.metrics lc.direction
        let ags := match lc.agentId with
          | some a =>
            let g := v1EnsureAgent s.agents a agentName
            match lc.direction with
            | .IN => alModify g a (fun ag => { ag with inboundMissed := ag.inboundMissed + 1 })
            | .OUT => alModify g a (fun ag => { ag with outboundMissed := ag.outboundMissed + 1 })
          | none => s.agents
        let m := clampInProgress m lc.direction
        let ags := match lc.agentId with
          | some a => alModify (v1EnsureAgent ags a agentName) a
              (fun ag => { ag with onCallNow := false })
          | none => ags
        { metrics := m, liveCalls := alDelete s.liveCalls callId, agents := ags }
    else if e.name = "OnVoximplantCallStart" then
      -- "Some installs send Start before Init; ensure liveCalls exists"
      if (alGet s.liveCalls callId).isSome then s
      else v1CreateCall now s callId direction agentId agentName fromNum toNum
    else s

/-! ## part_000: src/unnamed/part_000 (lines 40-477) -/

/-- Event-name predicates shared by part_000 and the daily-metrics variant:
`String(e||"").toUpperCase().includes(...)` (part_000 lines 69-80). -/
def isInitEvent (e : String) : Bool :=
  strIncludes (upStr e) "ONVOXIMPLANTCALLINIT" || strIncludes (upStr e) "CALLINIT"

/-- `isStartEvent` of part_000 and the daily-metrics variant. -/
def isStartEvent (e : String) : Bool :=
  strIncludes (upStr e) "ONVOXIMPLANTCALLSTART" || strIncludes (upStr e) "CALLSTART"

/-- `isEndEvent` of part_000 and the daily-metrics variant. -/
def isEndEvent (e : String) : Bool :=
  strIncludes (upStr e) "ONVOXIMPLANTCALLEND" || strIncludes (upStr e) "CALLEND"

/-- A `liveCalls` entry of part_000 (lines 362-372) and of the daily-metrics
variant (lines 953-963): `{callId, direction, from, to, status, wasAnswered,
agentId, agentName, startedAt}`. -/
structure P0Call where
  callId : String
  direction : Dir
  fromNum : String
  toNum : String
  status : String
  wasAnswered : Bool
  agentId : Option String
  agentName : String
  startedAt : Nat
deriving DecidableEq, Repr

/-- An `agents` entry of part_000 (lines 135-142) and of the daily-metrics
variant (lines 759-766). -/
structure P0Agent where
  agentId : String
  name : String
  onCallNow : Bool
  inboundMissed : Int
  outboundMissed : Int
deriving DecidableEq, Repr

/-- The mutable wallboard state of part_000. -/
structure P0State where
  metrics : Metrics
  liveCalls : List (String × P0Call)
  agents : List (String × P0Agent)
deriving DecidableEq, Repr

/-- part_000 boot state. -/
def p0Init : P0State := { metrics := metricsInit, liveCalls := [], agents := [] }

/-- `ensureAgent(agentId, agentName = "")` of part_000 (lines 132-150) and the
daily-metrics variant (lines 756-773): creates with default name
`Agent <id>`, else updates a differing non-empty name. -/
def p0EnsureAgent (ags : List (String × P0Agent)) (aid : String) (nm : String) :
    List (String × P0Agent) :=
  match alGet ags aid with
  | none =>
      alSet ags aid
        { agentId := aid, name := if nm = "" then "Agent " ++ aid else nm,
          onCallNow := false, inboundMissed := 0, outboundMissed := 0 }
  | some ag =>
      if nm = "" then ags
      else if nm = ag.name then ags
      else alSet ags aid { ag with name := nm }

/-- Candidate fields for `callId` in part_000 (lines 311-318) and the
daily-metrics variant (line 921). -/
def p0CallIdFields : List String :=
  ["CALL_ID", "callId", "id", "ID", "CALL_ID_EXTERNAL", "EXTERNAL_CALL_ID", "externalCallId"]

/-- `extractCallerNumber` candidate fields (part_000 lines 155-168). -/
def p0FromFields : List String :=
  ["PHONE_NUMBER", "CALLER_ID", "CALLER", "FROM_NUMBER", "FROM",
   "from", "phoneNumber", "phone", "PHONE", "NUMBER", "number", "CALLER_NUMBER"]

/-- Candidate fields for `to` (part_000 lines 327-334, daily variant line 944). -/
def p0ToFields : List String :=
  ["LINE_NUMBER", "LINE", "TO", "to", "DESTINATION", "destination"]

/-- `extractAgentId` candidate fields (part_000 lines 208-217, daily variant
lines 823-826). -/
def p0AgentIdFields : List String :=
  ["USER_ID", "PORTAL_USER_ID", "AGENT_ID", "agentId", "agent_id", "USER", "user", "userId"]

/-- `extractAgentName` candidate fields of part_000 (lines 182-194). -/
def p0AgentNameFields : List String :=
  ["USER_NAME", "USER_FULL_NAME", "USER", "AGENT_NAME", "AGENT_FULL_NAME",
   "agentName", "agent_name", "FULL_NAME", "fullName", "NAME", "name"]

/-- Candidate fields for `directionRaw` (part_000 lines 341-346, daily variant
line 947). -/
def p0DirectionFields : List String :=
  ["DIRECTION", "direction", "CALL_DIRECTION", "callDirection"]

/-- Candidate fields for `status` (part_000 lines 352-357, daily variant
line 949). -/
def p0StatusFields : List String :=
  ["STATUS", "status", "STATE", "state"]

/-- The "Update agent state (if we have agent)" block shared by part_000
(lines 394-403) and the daily-metrics variant (lines 985-995):
`ensureAgent(lc.agentId, lc.agentName || agentName)`, then
`a.onCallNow = !isEndEvent(eventName)`, then the conditional name fix-up.
`lcAgentId`/`lcAgentName` are the live-call record's fields at this point and
`evAgentName` is the name extracted from the current event. -/
def p0AgentSync (ags : List (String × P0Agent)) (lcAgentId : Option String)
    (lcAgentName evAgentName : String) (endEv : Bool) : List (String × P0Agent) :=
  match lcAgentId with
  | some a =>
    let g := p0EnsureAgent ags a (if lcAgentName = "" then evAgentName else lcAgentName)
    let g := alModify g a (fun ag => { ag with onCallNow := !endEv })
    if lcAgentName = "" then g
    else alModify g a (fun ag => if ag.name = lcAgentName then ag else { ag with name := lcAgentName })
  | none => ags

/-- The start-branch tally of part_000 (lines 428-436):
`answered += 1` then `clampDown(inProgress)` on the record's direction. -/
def p0AnswerTally (m : Metrics) (d : Dir) : Metrics :=
  match d with
  | .IN => clampInProgress { m with incoming := { m.incoming with answered := m.incoming.answered + 1 } } .IN
  | .OUT => clampInProgress { m with outgoing := { m.outgoing with answered := m.outgoing.answered + 1 } } .OUT

/-- The never-answered end-branch agent tally of part_000 (lines 454-463):
`agent.inboundMissed += 1` or `agent.outboundMissed += 1`. -/
def p0MissAgent (g : List (String × P0Agent)) (d : Dir) (aid : Option String)
    (nm : String) : List (String × P0Agent) :=
  match aid with
  | some a =>
    match d with
    | .IN => alModify (p0EnsureAgent g a nm) a
        (fun ag => { ag with inboundMissed := ag.inboundMissed + 1 })
    | .OUT => alModify (p0EnsureAgent g a nm) a
        (fun ag => { ag with outboundMissed := ag.outboundMissed + 1 })
  | none => g

/-- The end-branch `onCallNow` clear shared by part_000 (line 472) and the
daily-metrics variant (line 1050): `ensureAgent(lc.agentId, lc.agentName).onCallNow = false`. -/
def p0ClearOnCall (g : List (String × P0Agent)) (aid : Option String) (nm : String) :
    List (String × P0Agent) :=
  match aid with
  | some a => alModify (p0EnsureAgent g a nm) a (fun ag => { ag with onCallNow := false })
  | none => g

/-- One delivery to `app.post("/bitrix/events")` of part_000 (lines 297-477).
The branches are sequential `if`s in the source (not `else if`), and each
mutation of the shared `lc` object is threaded through; the final record is
written back (`Map.set` at creation aliases the mutated object) or deleted. -/
def p0Step (now : Nat) (s : P0State) (e : RawEvent) : P0State :=
  match probeTruthy e.data p0CallIdFields with
  | none => s
  | some callId =>
    let fromNum := (probeTrim e.data p0FromFields).getD ""
    let toNum := (probeTruthy e.data p0ToFields).getD ""
    let agentId? := probeTrim e.data p0AgentIdFields
    let agentName := (probeTrim e.data p0AgentNameFields).getD ""
    let direction := jsDirection ((probeTruthy e.data p0DirectionFields).getD "")
    let status := (probeTruthy e.data p0StatusFields).getD e.name
    -- "Ensure live call exists" (lines 360-377)
    let (m0, lc0) :=
      match alGet s.liveCalls callId with
      | some lc => (s.metrics, lc)
      | none =>
        (bumpInProgress s.metrics direction,
         { callId := callId, direction := direction, fromNum := fromNum, toNum := toNum,
           status := "INIT", wasAnswered := false, agentId := none, agentName := "",
           startedAt := now })
    -- "Update with latest info" (lines 379-392)
    let lc1 := if fromNum = "" then lc0 else { lc0 with fromNum := fromNum }
    let lc2 := if toNum = "" then lc1 else { lc1 with toNum := toNum }
    let lc3 := { lc2 with direction := direction }
    let lc4 :=
      match agentId? with
      | some a =>
        let t := { lc3 with agentId := some a }
        if agentName = "" then t else { t with agentName := agentName }
      | none => lc3
    let lc5 := { lc4 with status := status }
    -- "Update agent state (if we have agent)" (lines 394-403)
    let ags1 := p0AgentSync s.agents lc5.agentId lc5.agentName agentName (isEndEvent e.name)
    -- init branch (lines 406-412)
    let lc6 := if isInitEvent e.name then { lc5 with status := "RINGING" } else lc5
    -- start branch (lines 414-437)
    let lc7 := if isStartEvent e.name then { lc6 with status := "ANSWERED", wasAnswered := true } else lc6
    let m1 := if isStartEvent e.name then p0AnswerTally m0 lc6.direction else m0
    -- end branch (lines 439-476)
    if isEndEvent e.name then
      let lc8 := { lc7 with status := "ENDED" }
      let m2 := if lc8.wasAnswered then m1 else clampInProgress m1 lc8.direction
      let m3 := if lc8.wasAnswered then m2 else missTally m2 lc8.direction
      let ags2 := if lc8.wasAnswered then ags1 else p0MissAgent ags1 lc8.direction lc8.agentId lc8.agentName
      let ags3 := p0ClearOnCall ags2 lc8.agentId lc8.agentName
      { metrics := m3, liveCalls := alDelete s.liveCalls callId, agents := ags3 }
    else
      { metrics := m1, liveCalls := alSet s.liveCalls callId lc7, agents := ags1 }

/-! ## Daily-metrics variant: src/server.js, second document (lines 455-1053) -/

/-- `WORK_START_HOUR` (src/server.js line 479). -/
def WORK_START_HOUR : Nat := 8

/-- `WORK_END_HOUR` (src/server.js line 480). -/
def WORK_END_HOUR : Nat := 18

/-- `checkIfWithinWorkHours()` (src/server.js lines 530-541), as a function of
the Papua-New-Guinea-local (GMT+10) hour and minute the source computes from
`Date.now()`. -/
def checkIfWithinWorkHours (pngHour pngMinute : Nat) : Bool :=
  let currentTimeInMinutes := pngHour * 60 + pngMinute
  decide (WORK_START_HOUR * 60 ≤ currentTimeInMinutes) &&
    decide (currentTimeInMinutes < WORK_END_HOUR * 60)

/-- The mutable part of `dailyMetrics` the event handler can observe or touch
(src/server.js lines 490-498); the `date` / `startedAt` / `lastReset` strings
are never read or written by the handler and are omitted. -/
structure DMetrics where
  isWithinWorkHours : Bool
  incoming : InCounters
  outgoing : OutCounters
  missedDroppedAbandoned : Int
deriving DecidableEq, Repr

/-- `dailyMetrics.<direction>.inProgress += 1`. -/
def dBumpInProgress (m : DMetrics) (d : Dir) : DMetrics :=
  match d with
  | .IN => { m with incoming := { m.incoming with inProgress := m.incoming.inProgress + 1 } }
  | .OUT => { m with outgoing := { m.outgoing with inProgress := m.outgoing.inProgress + 1 } }

/-- The start-branch tally of the daily-metrics variant (lines 1016-1022):
`answered += 1` and `clampDown(inProgress)` on the record's direction. -/
def dAnswerTally (m : DMetrics) (d : Dir) : DMetrics :=
  match d with
  | .IN => { m with incoming :=
      { m.incoming with
        answered := m.incoming.answered + 1,
        inProgress := clampDown m.incoming.inProgress } }
  | .OUT => { m with outgoing :=
      { m.outgoing with
        answered := m.outgoing.answered + 1,
        inProgress := clampDown m.outgoing.inProgress } }

/-- The never-answered end-branch tally of the daily-metrics variant
(lines 1028-1044): clamp `inProgress` and count `missed`+`missedDroppedAbandoned`
(inbound) or `cancelled` (outbound). -/
def dEndMissTally (m : DMetrics) (d : Dir) : DMetrics :=
  match d with
  | .IN => { m with
      incoming := { m.incoming with
        inProgress := clampDown m.incoming.inProgress,
        missed := m.incoming.missed + 1 },
      missedDroppedAbandoned := m.missedDroppedAbandoned + 1 }
  | .OUT => { m with
      outgoing := { m.outgoing with
        inProgress := clampDown m.outgoing.inProgress,
        cancelled := m.outgoing.cancelled + 1 } }

/-- The mutable wallboard state of the daily-metrics variant; live calls and
agents have the same record shapes as part_000. -/
structure DState where
  dailyMetrics : DMetrics
  liveCalls : List (String × P0Call)
  agents : List (String × P0Agent)
deriving DecidableEq, Repr

/-- Daily-variant boot state at a clock reading `within` work hours or not. -/
def dInit (within : Bool) : DState :=
  { dailyMetrics :=
      { isWithinWorkHours := within
        incoming := { inProgress := 0, answered := 0, missed := 0 }
        outgoing := { inProgress := 0, answered := 0, cancelled := 0 }
        missedDroppedAbandoned := 0 }
    liveCalls := [], agents := [] }

/-- `extractAgentName` candidate fields of the daily-metrics variant
(lines 795-809): part_000's list plus the two `PORTAL_USER_*` fields. -/
def dAgentNameFields : List String :=
  p0AgentNameFields ++ ["PORTAL_USER_NAME", "PORTAL_USER_FULL_NAME"]

/-- Digits of a string, modelling `rawNumber.replace(/\D/g, "")`
(src/server.js line 785). -/
def digitsOnly (s : String) : String := ⟨s.toList.filter Char.isDigit⟩

/-- `extractCallerNumber` of the daily-metrics variant (lines 775-791):
first trimmed-non-empty candidate, reduced to its digits when it has any. -/
def dCallerNumber (data : List (String × String)) : List String → String
  | [] => ""
  | f :: fs =>
    match alGet data f with
    | some v =>
      if jsTrim v = "" then dCallerNumber data fs
      else if digitsOnly (jsTrim v) = "" then jsTrim v
      else digitsOnly (jsTrim v)
    | none => dCallerNumber data fs

/-- One delivery to `app.post("/bitrix/events")` of the daily-metrics variant
(src/server.js lines 911-1053).  Mirrors `p0Step` except for the work-hours
gate, the digits-only caller number, the separate `agentId` / `agentName`
record updates, and the start-branch agent backfill. -/
def dStep (now : Nat) (s : DState) (e : RawEvent) : DState :=
  match probeTruthy e.data p0CallIdFields with
  | none => s
  | some callId =>
    -- "Only process calls during work hours" (lines 937-941)
    if !s.dailyMetrics.isWithinWorkHours then s
    else
      let fromNum := dCallerNumber e.data p0FromFields
      let toNum := (probeTruthy e.data p0ToFields).getD ""
      let agentId? := probeTrim e.data p0AgentIdFields
      let agentName := (probeTrim e.data dAgentNameFields).getD ""
      let direction := jsDirection ((probeTruthy e.data p0DirectionFields).getD "")
      let status := (probeTruthy e.data p0StatusFields).getD e.name
      let (m0, lc0) :=
        match alGet s.liveCalls callId with
        | some lc => (s.dailyMetrics, lc)
        | none =>
          (dBumpInProgress s.dailyMetrics direction,
           { callId := callId, direction := direction, fromNum := fromNum, toNum := toNum,
             status := "INIT", wasAnswered := false, agentId := none, agentName := "",
             startedAt := now })
      let lc1 := if fromNum = "" then lc0 else { lc0 with fromNum := fromNum }
      let lc2 := if toNum = "" then lc1 else { lc1 with toNum := toNum }
      let lc3 := { lc2 with direction := direction }
      let lc4 :=
        match agentId? with
        | some a => { lc3 with agentId := some a }
        | none => lc3
      let lc5 := if agentName = "" then lc4 else { lc4 with agentName := agentName }
      let lc6 := { lc5 with status := status }
      let ags1 := p0AgentSync s.agents lc6.agentId lc6.agentName agentName (isEndEvent e.name)
      let lc7 := if isInitEvent e.name then { lc6 with status := "RINGING" } else lc6
      let lc8 :=
        if isStartEvent e.name then
          let lcA := { lc7 with status := "ANSWERED", wasAnswered := true }
          let lcB :=
            match agentId?, lcA.agentId with
            | some a, none => { lcA with agentId := some a }
            | _, _ => lcA
          if agentName = "" then lcB
          else if lcB.agentName = "" then { lcB with agentName := agentName } else lcB
        else lc7
      let m1 := if isStartEvent e.name then dAnswerTally m0 lc7.direction else m0
      if isEndEvent e.name then
        let lc9 := { lc8 with status := "ENDED" }
        let m2 := if lc9.wasAnswered then m1 else dEndMissTally m1 lc9.direction
        let ags2 := if lc9.wasAnswered then ags1 else p0MissAgent ags1 lc9.direction lc9.agentId lc9.agentName
        let ags3 := p0ClearOnCall ags2 lc9.agentId lc9.agentName
        { dailyMetrics := m2, liveCalls := alDelete s.liveCalls callId, agents := ags3 }
      else
        { dailyMetrics := m1, liveCalls := alSet s.liveCalls callId lc8, agents := ags1 }

/-! ## part_001: src/unnamed/part_001 (lines 17-293) -/

/-- A per-direction counter block of part_001 (lines 24-25):
`{ inProgress, missed, cancelled }`. -/
structure P1Counters where
  inProgress : Int
  missed : Int
  cancelled : Int
deriving DecidableEq, Repr

/-- The `metrics` object of part_001 (lines 23-28). -/
structure P1Metrics where
  incoming : P1Counters
  outgoing : P1Counters
  missedDroppedAbandoned : Int
  activeAgentsOnCall : Int
deriving DecidableEq, Repr

/-- A `liveCalls` entry of part_001 (line 240). -/
structure P1Call where
  callId : String
  direction : Dir
  startedAt : Nat
  agentId : Option String
deriving DecidableEq, Repr

/-- An `agentLive` entry of part_001 (lines 50-58). -/
structure P1Agent where
  agentId : String
  onCallNow : Bool
  inboundHandled : Int
  inboundMissed : Int
  outboundHandled : Int
  outboundMissed : Int
  talkSeconds : Int
deriving DecidableEq, Repr

/-- The mutable wallboard state of part_001. -/
structure P1State where
  metrics : P1Metrics
  liveCalls : List (String × P1Call)
  agents : List (String × P1Agent)
deriving DecidableEq, Repr

/-- part_001 boot state. -/
def p1Init : P1State :=
  { metrics :=
      { incoming := { inProgress := 0, missed := 0, cancelled := 0 }
        outgoing := { inProgress := 0, missed := 0, cancelled := 0 }
        missedDroppedAbandoned := 0, activeAgentsOnCall := 0 }
    liveCalls := [], agents := [] }

/-- `ensureAgent(agentId)` of part_001 (lines 47-61). -/
def p1EnsureAgent (ags : List (String × P1Agent)) (aid : String) : List (String × P1Agent) :=
  match alGet ags aid with
  | none =>
      alSet ags aid
        { agentId := aid, onCallNow := false, inboundHandled := 0, inboundMissed := 0,
          outboundHandled := 0, outboundMissed := 0, talkSeconds := 0 }
  | some _ => ags

/-- `recomputeActiveAgentsOnCall()` (lines 63-67), run inside `broadcast()` at
the end of every mutating branch. -/
def p1Recompute (s : P1State) : P1State :=
  { s with metrics :=
      { s.metrics with
        activeAgentsOnCall := ((s.agents.filter (fun p => p.2.onCallNow)).length : Int) } }

/-- `metrics.<direction>.inProgress += 1` of part_001 (lines 241-242). -/
def p1BumpInProgress (m : P1Metrics) (d : Dir) : P1Metrics :=
  match d with
  | .IN => { m with incoming := { m.incoming with inProgress := m.incoming.inProgress + 1 } }
  | .OUT => { m with outgoing := { m.outgoing with inProgress := m.outgoing.inProgress + 1 } }

/-- `clampDown(metrics.<direction>, "inProgress")` of part_001 (lines 266-267). -/
def p1ClampInProgress (m : P1Metrics) (d : Dir) : P1Metrics :=
  match d with
  | .IN => { m with incoming := { m.incoming with inProgress := clampDown m.incoming.inProgress } }
  | .OUT => { m with outgoing := { m.outgoing with inProgress := clampDown m.outgoing.inProgress } }

/-- The "basic tally" of part_001's end branch (lines 270-283):
`missed`+`missedDroppedAbandoned` for inbound, `cancelled` for outbound. -/
def p1MissTally (m : P1Metrics) (d : Dir) : P1Metrics :=
  match d with
  | .IN => { m with
      incoming := { m.incoming with missed := m.incoming.missed + 1 },
      missedDroppedAbandoned := m.missedDroppedAbandoned + 1 }
  | .OUT => { m with
      outgoing := { m.outgoing with cancelled := m.outgoing.cancelled + 1 } }

/-- `extractEventName` candidate access paths of part_001 (lines 211-213). -/
def p1EventFields : List String :=
  ["event", "EVENT_NAME", "data.event", "data.EVENT_NAME", "eventName"]

/-- `extractCallId` candidate access paths of part_001 (lines 214-216). -/
def p1CallIdFields : List String :=
  ["callId", "CALL_ID", "data.CALL_ID", "data.callId"]

/-- `extractAgentId` candidate access paths of part_001 (lines 217-219). -/
def p1AgentIdFields : List String :=
  ["userId", "USER_ID", "data.USER_ID", "data.userId"]

/-- `extractDirection(body)` of part_001 (lines 220-224). -/
def p1Direction (body : List (String × String)) : Dir :=
  let v := downStr ((probeTruthy body ["direction", "DIRECTION", "data.DIRECTION"]).getD "")
  if strIncludes v "out" then .OUT else .IN

/-- `extractCallId(body) || unknown-<Date.now()>` of part_001 (line 231). -/
def p1ResolvedCallId (body : List (String × String)) (now : Nat) : String :=
  (probeTruthy body p1CallIdFields).getD ("unknown-" ++ toString now)

/-- One delivery to `app.post("/bitrix/events")` of part_001 (lines 226-293).
A missing callId is replaced by the synthetic key `unknown-<Date.now()>`
(line 231); the nested `body.data` access paths appear as dotted keys. -/
def p1Step (now : Nat) (s : P1State) (body : List (String × String)) : P1State :=
  let eventName? := probeTruthy body p1EventFields
  let callId := p1ResolvedCallId body now
  let agentId? := probeTruthy body p1AgentIdFields
  let direction := p1Direction body
  match eventName? with
  | none => s
  | some ev =>
    if ev = "OnVoximplantCallInit" then
      let lcs := alSet s.liveCalls callId
        { callId := callId, direction := direction, startedAt := now, agentId := agentId? }
      let m := p1BumpInProgress s.metrics direction
      let ags :=
        match agentId? with
        | some a => alModify (p1EnsureAgent s.agents a) a (fun ag => { ag with onCallNow := true })
        | none => s.agents
      p1Recompute { metrics := m, liveCalls := lcs, agents := ags }
    else if ev = "OnVoximplantCallStart" then
      let lcs :=
        match alGet s.liveCalls callId with
        | some lc =>
          alSet s.liveCalls callId
            { lc with agentId := match agentId? with | some a => some a | none => lc.agentId }
        | none => s.liveCalls
      let ags :=
        match agentId? with
        | some a => alModify (p1EnsureAgent s.agents a) a (fun ag => { ag with onCallNow := true })
        | none => s.agents
      p1Recompute { s with liveCalls := lcs, agents := ags }
    else if ev = "OnVoximplantCallEnd" then
      match alGet s.liveCalls callId with
      | none => s
      | some lc =>
        let m := p1ClampInProgress s.metrics lc.direction
        -- "basic tally" (lines 270-283)
        let m := p1MissTally m lc.direction
        let ags := match lc.agentId with
          | some a =>
            match lc.direction with
            | .IN => alModify (p1EnsureAgent s.agents a) a
                (fun ag => { ag with inboundMissed := ag.inboundMissed + 1 })
            | .OUT => alModify (p1EnsureAgent s.agents a) a
                (fun ag => { ag with outboundMissed := ag.outboundMissed + 1 })
          | none => s.agents
        let ags :=
          match lc.agentId with
          | some a => alModify (p1EnsureAgent ags a) a (fun ag => { ag with onCallNow := false })
          | none => ags
        p1Recompute { metrics := m, liveCalls := alDelete s.liveCalls callId, agents := ags }
    else s

/-! ## Concrete events and run functions used to state the claims -/

/-- The payload value of a `DIRECTION` field that resolves to `d`. -/
def dirStr (d : Dir) : String :=
  match d with
  | .IN => "IN"
  | .OUT => "OUT"

/-- A variant-1 `OnVoximplantCallInit` delivery for call `c`, direction field `d`. -/
def v1InitEvent (c d : String) : RawEvent :=
  { name := "OnVoximplantCallInit", data := [("CALL_ID", c), ("DIRECTION", d)] }

/-- A variant-1 `OnVoximplantCallConnected` delivery for call `c`. -/
def v1ConnEvent (c : String) : RawEvent :=
  { name := "OnVoximplantCallConnected", data := [("CALL_ID", c)] }

/-- A variant-1 `OnVoximplantCallEnd` delivery for call `c` (no direction field). -/
def v1EndEvent (c : String) : RawEvent :=
  { name := "OnVoximplantCallEnd", data := [("CALL_ID", c)] }

/-- An outbound-webhook-style `ONVOXIMPLANTCALLINIT` delivery with a direction field. -/
def initEventD (c : String) (d : Dir) : RawEvent :=
  { name := "ONVOXIMPLANTCALLINIT", data := [("CALL_ID", c), ("DIRECTION", dirStr d)] }

/-- An `ONVOXIMPLANTCALLINIT` delivery that also carries a `USER_ID`. -/
def initEventAgent (c d a : String) : RawEvent :=
  { name := "ONVOXIMPLANTCALLINIT", data := [("CALL_ID", c), ("DIRECTION", d), ("USER_ID", a)] }

/-- An `ONVOXIMPLANTCALLSTART` delivery for call `c`. -/
def startEvent (c : String) : RawEvent :=
  { name := "ONVOXIMPLANTCALLSTART", data := [("CALL_ID", c)] }

/-- An `ONVOXIMPLANTCALLEND` delivery for call `c` with no direction field. -/
def endEvent (c : String) : RawEvent :=
  { name := "ONVOXIMPLANTCALLEND", data := [("CALL_ID", c)] }

/-- An `ONVOXIMPLANTCALLEND` delivery carrying a direction field. -/
def endEventD (c : String) (d : Dir) : RawEvent :=
  { name := "ONVOXIMPLANTCALLEND", data := [("CALL_ID", c), ("DIRECTION", dirStr d)] }

/-- Fold a list of part_000 deliveries (all at `Date.now() = 0`) from boot. -/
def p0Run (es : List RawEvent) : P0State :=
  es.foldl (fun s e => p0Step 0 s e) p0Init

/-- Fold timestamped part_000 deliveries from an arbitrary state. -/
def p0RunFrom (s : P0State) (es : List (Nat × RawEvent)) : P0State :=
  es.foldl (fun t p => p0Step p.1 t p.2) s

/-- Fold timestamped variant-1 deliveries from boot. -/
def v1Run (es : List (Nat × RawEvent)) : V1State :=
  es.foldl (fun s p => v1Step p.1 s p.2) v1Init

/-- Fold timestamped part_001 deliveries from boot. -/
def p1Run (es : List (Nat × List (String × String))) : P1State :=
  es.foldl (fun s p => p1Step p.1 s p.2) p1Init

/-- The `{init, end}` round trip of claim C4 on part_000: an init at `t1` and
an end at `t2`, both carrying direction `d`, for one callId `c`. -/
def initEndRun (t1 t2 : Nat) (s : P0State) (c : String) (d : Dir) : P0State :=
  p0Step t2 (p0Step t1 s (initEventD c d)) (endEventD c d)

/-! ## Helper lemmas about the association-list operations -/

theorem alGet_alSet_self {α : Type} (m : List (String × α)) (k : String) (v : α) :
    alGet (alSet m k v) k = some v := by
  induction m with
  | nil => simp [alGet, alSet]
  | cons p rest ih =>
    obtain ⟨k', v'⟩ := p
    by_cases h : k' = k
    · simp [alGet, alSet, h]
    · simp [alGet, alSet, h, ih]

theorem alGet_alSet_ne {α : Type} (m : List (String × α)) (k : String) (v : α)
    (k' : String) (h : k' ≠ k) : alGet (alSet m k v) k' = alGet m k' := by
  have h1 : ¬ k = k' := fun hk => h hk.symm
  induction m with
  | nil => simp [alGet, alSet, h1]
  | cons p rest ih =>
    obtain ⟨k₀, v₀⟩ := p
    by_cases h₀ : k₀ = k
    · have h2 : ¬ k₀ = k' := fun hk => h1 (h₀.symm.trans hk)
      simp [alGet, alSet, h₀, h1, h2]
    · simp [alGet, alSet, h₀, ih]

theorem alGet_alDelete_self {α : Type} (m : List (String × α)) (k : String) :
    alGet (alDelete m k) k = none := by
  induction m with
  | nil => simp [alGet, alDelete]
  | cons p rest ih =>
    obtain ⟨k₀, v₀⟩ := p
    by_cases h : k₀ = k
    · simpa [alDelete, h] using ih
    · simpa [alDelete, alGet, h] using ih

theorem alGet_alDelete_ne {α : Type} (m : List (String × α)) (k k' : String)
    (h : k' ≠ k) : alGet (alDelete m k) k' = alGet m k' := by
  induction m with
  | nil => simp [alGet, alDelete]
  | cons p rest ih =>
    obtain ⟨k₀, v₀⟩ := p
    have h1 : ¬ k = k' := fun hk => h hk.symm
    by_cases h₀ : k₀ = k
    · have hne : ¬ k₀ = k' := fun hk => h1 (h₀.symm.trans hk)
      simp [alDelete, alGet, h₀, h1, hne, ih]
    · by_cases h₁ : k₀ = k'
      · simp [alDelete, alGet, h₀, h₁, h1, h]
      · simp [alDelete, alGet, h₀, h₁, ih]

theorem alGet_alModify_self {α : Type} (m : List (String × α)) (k : String) (f : α → α) :
    alGet (alModify m k f) k = (alGet m k).map f := by
  unfold alModify
  cases h : alGet m k with
  | none => simp [h]
  | some v => simp [alGet_alSet_self]

theorem alGet_alModify_ne {α : Type} (m : List (String × α)) (k : String) (f : α → α)
    (k' : String) (h : k' ≠ k) : alGet (alModify m k f) k' = alGet m k' := by
  unfold alModify
  cases hv : alGet m k with
  | none => rfl
  | some v => exact alGet_alSet_ne m k (f v) k' h

theorem alGet_p0EnsureAgent_self (m : List (String × P0Agent)) (a nm : String) :
    (alGet (p0EnsureAgent m a nm)  a).map P0Agent.onCallNow =
      some (((alGet m a).map P0Agent.onCallNow).getD false) := by
  unfold p0EnsureAgent
  cases h : alGet m a with
  | none => simp [alGet_alSet_self]
  | some ag =>
    by_cases h₁ : nm = ""
    · simp [h₁, h]
    · by_cases h₂ : nm = ag.name
      · simp [h₁, h₂, h]
      · simp [h₁, h₂, alGet_alSet_self]

/-! ## Helper facts about the event-name predicates on the concrete names -/

@[simp] theorem isInitEvent_initName : isInitEvent "ONVOXIMPLANTCALLINIT" = true := by decide

@[simp] theorem isStartEvent_initName : isStartEvent "ONVOXIMPLANTCALLINIT" = false := by decide

@[simp] theorem isEndEvent_initName : isEndEvent "ONVOXIMPLANTCALLINIT" = false := by decide

@[simp] theorem isInitEvent_endName : isInitEvent "ONVOXIMPLANTCALLEND" = false := by decide

@[simp] theorem isStartEvent_endName : isStartEvent "ONVOXIMPLANTCALLEND" = false := by decide

@[simp] theorem isEndEvent_endName : isEndEvent "ONVOXIMPLANTCALLEND" = true := by decide

@[simp] theorem jsDirection_dirStr (d : Dir) : jsDirection (dirStr d) = d := by
  cases d <;> decide

@[simp] theorem dirStr_ne_empty (d : Dir) : (dirStr d = "") = False := by
  cases d <;> simp [dirStr]

/-! ## Supporting lemmas about the part_000 step function -/

/-- A delivery for an already-registered callId whose event name is neither a
start nor an end event leaves the part_000 metrics untouched (the creation
bump is skipped and no tally branch fires). -/
theorem p0Step_metrics_frozen (now : Nat) (s : P0State) (e : RawEvent) (c : String)
    (hc : probeTruthy e.data p0CallIdFields = some c)
    (hlc : alGet s.liveCalls c ≠ none)
    (hstart : isStartEvent e.name = false)
    (hend : isEndEvent e.name = false) :
    (p0Step now s e).metrics = s.metrics := by
  cases h : alGet s.liveCalls c with
  | none => exact absurd h hlc
  | some lc => simp [p0Step, hc, h, hstart, hend]

/-- After any non-end delivery carrying a callId, that callId is registered. -/
theorem p0Step_registers (now : Nat) (s : P0State) (e : RawEvent) (c : String)
    (hc : probeTruthy e.data p0CallIdFields = some c)
    (hend : isEndEvent e.name = false) :
    alGet (p0Step now s e).liveCalls c ≠ none := by
  cases h : alGet s.liveCalls c with
  | none => simp [p0Step, hc, h, hend, alGet_alSet_self]
  | some lc => simp [p0Step, hc, h, hend, alGet_alSet_self]

/-- A registered callId stays registered across any delivery that is not an
end event resolving to that same callId. -/
theorem p0Step_keeps_member (now : Nat) (s : P0State) (e : RawEvent) (c : String)
    (hmem : alGet s.liveCalls c ≠ none)
    (hne : probeTruthy e.data p0CallIdFields = some c → isEndEvent e.name = false) :
    alGet (p0Step now s e).liveCalls c ≠ none := by
  cases hp : probeTruthy e.data p0CallIdFields with
  | none => simpa [p0Step, hp] using hmem
  | some c' =>
    by_cases hend : isEndEvent e.name
    · have hcc : c' ≠ c := by
        intro hEq
        subst hEq
        exact absurd (hne hp) (by simp [hend])
      cases h : alGet s.liveCalls c' with
      | none => simp [p0Step, hp, h, hend, alGet_alDelete_ne s.liveCalls c' c (Ne.symm hcc), hmem]
      | some lc => simp [p0Step, hp, h, hend, alGet_alDelete_ne s.liveCalls c' c (Ne.symm hcc), hmem]
    · by_cases hcc : c' = c
      · subst hcc
        cases h : alGet s.liveCalls c' with
        | none => simp [p0Step, hp, h, hend, alGet_alSet_self]
        | some lc => simp [p0Step, hp, h, hend, alGet_alSet_self]
      · have hcc' : c ≠ c' := fun hk => hcc hk.symm
        cases h : alGet s.liveCalls c' with
        | none => simp [p0Step, hp, h, hend, alGet_alSet_ne _ _ _ _ hcc', hmem]
        | some lc => simp [p0Step, hp, h, hend, alGet_alSet_ne _ _ _ _ hcc', hmem]

/-- `ensureAgent` always leaves a record for the requested agent. -/
theorem p0EnsureAgent_isSome (m : List (String × P0Agent)) (a nm : String) :
    ∃ ag, alGet (p0EnsureAgent m a nm) a = some ag := by
  cases hg : alGet (p0EnsureAgent m a nm) a with
  | none =>
    have := alGet_p0EnsureAgent_self m a nm
    rw [hg] at this
    simp at this
  | some ag => exact ⟨ag, rfl⟩

/-- After the agent-state update block, the referenced agent's `onCallNow` is
exactly the negation of the end-event test, whatever it was before. -/
theorem p0AgentSync_onCallNow (ags : List (String × P0Agent)) (a : String)
    (lcName evName : String) (endEv : Bool) :
    (alGet (p0AgentSync ags (some a) lcName evName endEv) a).map P0Agent.onCallNow =
      some (!endEv) := by
  unfold p0AgentSync
  cases hg : alGet (p0EnsureAgent ags a (if lcName = "" then evName else lcName)) a with
  | none =>
    have := alGet_p0EnsureAgent_self ags a (if lcName = "" then evName else lcName)
    rw [hg] at this
    simp at this
  | some ag =>
    by_cases hn : lcName = ""
    · subst hn
      simp at hg
      simp [alGet_alModify_self, hg]
    · have hg' : alGet (p0EnsureAgent ags a lcName) a = some ag := by simpa [hn] using hg
      simp [hn, alGet_alModify_self, hg', Option.map_map, Function.comp,
        apply_ite P0Agent.onCallNow]

/-- The end-branch `onCallNow` clear always leaves the agent marked off-call. -/
theorem p0ClearOnCall_onCallNow (g : List (String × P0Agent)) (a nm : String) :
    (alGet (p0ClearOnCall g (some a) nm) a).map P0Agent.onCallNow = some false := by
  unfold p0ClearOnCall
  obtain ⟨ag, hg⟩ := p0EnsureAgent_isSome g a nm
  simp [alGet_alModify_self, hg]

/-- Shape of a part_000 init delivery for a fresh callId: the record is created
in `RINGING` with the event's direction, `inProgress` is bumped once, agents
are untouched. -/
theorem p0Step_init_new (t : Nat) (s : P0State) (c : String) (d : Dir)
    (hc : ¬ c = "") (hnone : alGet s.liveCalls c = none) :
    p0Step t s (initEventD c d) =
      { metrics := bumpInProgress s.metrics d,
        liveCalls := alSet s.liveCalls c
          { callId := c, direction := d, fromNum := "", toNum := "", status := "RINGING",
            wasAnswered := false, agentId := none, agentName := "", startedAt := t },
        agents := s.agents } := by
  simp [p0Step, initEventD, probeTruthy, probeTrim, alGet, p0CallIdFields, p0FromFields,
    p0ToFields, p0AgentIdFields, p0AgentNameFields, p0DirectionFields, p0StatusFields,
    hc, hnone, p0AgentSync]

/-- Shape of a part_000 end delivery carrying direction `d` for a registered,
never-answered, agentless record: the stored direction is overwritten by `d`,
the `d`-side `inProgress` is clamp-decremented, the `d`-side missed/cancelled
tally fires, and the record is deleted. -/
theorem p0Step_end_existing (t : Nat) (s : P0State) (c : String) (lc : P0Call) (d : Dir)
    (hc : ¬ c = "") (hlc : alGet s.liveCalls c = some lc)
    (hwa : lc.wasAnswered = false) (hagent : lc.agentId = none) :
    p0Step t s (endEventD c d) =
      { metrics := missTally (clampInProgress s.metrics d) d,
        liveCalls := alDelete s.liveCalls c,
        agents := s.agents } := by
  simp [p0Step, endEventD, probeTruthy, probeTrim, alGet, p0CallIdFields, p0FromFields,
    p0ToFields, p0AgentIdFields, p0AgentNameFields, p0DirectionFields, p0StatusFields,
    hc, hlc, hwa, hagent, p0AgentSync, p0MissAgent, p0ClearOnCall]

/-! ## Supporting lemmas for the inProgress invariant -/

theorem bumpInProgress_nonneg (m : Metrics) (d : Dir)
    (h1 : 0 ≤ m.incoming.inProgress) (h2 : 0 ≤ m.outgoing.inProgress) :
    0 ≤ (bumpInProgress m d).incoming.inProgress ∧
      0 ≤ (bumpInProgress m d).outgoing.inProgress := by
  cases d <;> simp [bumpInProgress] <;> omega

theorem clampInProgress_nonneg (m : Metrics) (d : Dir)
    (h1 : 0 ≤ m.incoming.inProgress) (h2 : 0 ≤ m.outgoing.inProgress) :
    0 ≤ (clampInProgress m d).incoming.inProgress ∧
      0 ≤ (clampInProgress m d).outgoing.inProgress := by
  cases d <;> simp [clampInProgress, clampDown] <;> omega

theorem answerCount_inProgress (m : Metrics) (d : Dir) :
    (answerCount m d).incoming.inProgress = m.incoming.inProgress ∧
      (answerCount m d).outgoing.inProgress = m.outgoing.inProgress := by
  cases d <;> simp [answerCount]

theorem missTally_inProgress (m : Metrics) (d : Dir) :
    (missTally m d).incoming.inProgress = m.incoming.inProgress ∧
      (missTally m d).outgoing.inProgress = m.outgoing.inProgress := by
  cases d <;> simp [missTally]

/-- One variant-1 delivery preserves non-negativity of both `inProgress` gauges. -/
theorem v1Step_inv (now : Nat) (s : V1State) (e : RawEvent)
    (h1 : 0 ≤ s.metrics.incoming.inProgress) (h2 : 0 ≤ s.metrics.outgoing.inProgress) :
    0 ≤ (v1Step now s e).metrics.incoming.inProgress ∧
      0 ≤ (v1Step now s e).metrics.outgoing.inProgress := by
  unfold v1Step
  cases hp : probeTruthy e.data v1CallIdFields with
  | none => exact ⟨h1, h2⟩
  | some c =>
    by_cases hb1 : e.name = "OnVoximplantCallInit"
    · simp [hb1, v1CreateCall]
      exact bumpInProgress_nonneg s.metrics _ h1 h2
    · by_cases hb2 : e.name = "OnVoximplantCallConnected"
      · simp [hb1, hb2]
        refine ⟨?_, ?_⟩
        · rw [(answerCount_inProgress _ _).1]
          exact (clampInProgress_nonneg _ _ h1 h2).1
        · rw [(answerCount_inProgress _ _).2]
          exact (clampInProgress_nonneg _ _ h1 h2).2
      · by_cases hb3 : e.name = "OnVoximplantCallEnd"
        · cases hlc : alGet s.liveCalls c with
          | none =>
            simp [hb1, hb2, hb3, hlc]
            exact clampInProgress_nonneg s.metrics _ h1 h2
          | some lc =>
            simp [hb1, hb2, hb3, hlc]
            have hm := missTally_inProgress s.metrics lc.direction
            refine ⟨?_, ?_⟩
            · exact (clampInProgress_nonneg _ lc.direction
                (by rw [hm.1]; exact h1) (by rw [hm.2]; exact h2)).1
            · exact (clampInProgress_nonneg _ lc.direction
                (by rw [hm.1]; exact h1) (by rw [hm.2]; exact h2)).2
        · by_cases hb4 : e.name = "OnVoximplantCallStart"
          · by_cases hh : (alGet s.liveCalls c).isSome
            · simp [hb1, hb2, hb3, hb4, hh]
              exact ⟨h1, h2⟩
            · simp [hb1, hb2, hb3, hb4, hh, v1CreateCall]
              exact bumpInProgress_nonneg s.metrics _ h1 h2
          · simp [hb1, hb2, hb3, hb4]
            exact ⟨h1, h2⟩

theorem p1BumpInProgress_nonneg (m : P1Metrics) (d : Dir)
    (h1 : 0 ≤ m.incoming.inProgress) (h2 : 0 ≤ m.outgoing.inProgress) :
    0 ≤ (p1BumpInProgress m d).incoming.inProgress ∧
      0 ≤ (p1BumpInProgress m d).outgoing.inProgress := by
  cases d <;> simp [p1BumpInProgress] <;> omega

theorem p1ClampInProgress_nonneg (m : P1Metrics) (d : Dir)
    (h1 : 0 ≤ m.incoming.inProgress) (h2 : 0 ≤ m.outgoing.inProgress) :
    0 ≤ (p1ClampInProgress m d).incoming.inProgress ∧
      0 ≤ (p1ClampInProgress m d).outgoing.inProgress := by
  cases d <;> simp [p1ClampInProgress, clampDown] <;> omega

theorem p1MissTally_inProgress (m : P1Metrics) (d : Dir) :
    (p1MissTally m d).incoming.inProgress = m.incoming.inProgress ∧
      (p1MissTally m d).outgoing.inProgress = m.outgoing.inProgress := by
  cases d <;> simp [p1MissTally]

/-- One part_001 delivery preserves non-negativity of both `inProgress` gauges. -/
theorem p1Step_inv (now : Nat) (s : P1State) (body : List (String × String))
    (h1 : 0 ≤ s.metrics.incoming.inProgress) (h2 : 0 ≤ s.metrics.outgoing.inProgress) :
    0 ≤ (p1Step now s body).metrics.incoming.inProgress ∧
      0 ≤ (p1Step now s body).metrics.outgoing.inProgress := by
  unfold p1Step
  cases hev : probeTruthy body p1EventFields with
  | none => exact ⟨h1, h2⟩
  | some ev =>
    by_cases hb1 : ev = "OnVoximplantCallInit"
    · simp [hb1, p1Recompute]
      exact p1BumpInProgress_nonneg s.metrics _ h1 h2
    · by_cases hb2 : ev = "OnVoximplantCallStart"
      · simp [hb1, hb2, p1Recompute]
        exact ⟨h1, h2⟩
      · by_cases hb3 : ev = "OnVoximplantCallEnd"
        · cases hlc : alGet s.liveCalls (p1ResolvedCallId body now) with
          | none =>
            simp [hb1, hb2, hb3, hlc]
            exact ⟨h1, h2⟩
          | some lc =>
            simp [hb1, hb2, hb3, hlc, p1Recompute]
            have hclamp := p1ClampInProgress_nonneg s.metrics lc.direction h1 h2
            refine ⟨?_, ?_⟩
            · rw [(p1MissTally_inProgress _ _).1]
              exact hclamp.1
            · rw [(p1MissTally_inProgress _ _).2]
              exact hclamp.2
        · simp [hb1, hb2, hb3]
          exact ⟨h1, h2⟩

/-! ## Claim C1 -/

/-- Claim C1 states that `{init, connected, end}` for one callId yields a net-zero
`inProgress` change, `answered` incremented exactly once, `missed`/`cancelled`
unchanged, and that `answered`/`missed`/`cancelled` are mutated only at the `end`
transition.  The cited code (src/server.js first document, lines 323-346 and
358-390) does not do this: `answered` is incremented already at the
`OnVoximplantCallConnected` branch, and because `assumedConnected` is hardwired
`false` (line 360) the `OnVoximplantCallEnd` branch additionally increments
`missed` and `missedDroppedAbandoned` for the very same call, double-counting
it.  This theorem evaluates the embedded handler at the failing input: after
init and connected, `answered` is already `1`; after end, the final counters
are `answered = 1`, `missed = 1`, `missedDroppedAbandoned = 1`. -/
theorem c1_connected_then_end_double_counts :
    ((v1Step 1 (v1Step 0 v1Init (v1InitEvent "c1" "IN")) (v1ConnEvent "c1")).metrics.incoming.answered = 1) ∧
    ((v1Step 2 (v1Step 1 (v1Step 0 v1Init (v1InitEvent "c1" "IN")) (v1ConnEvent "c1")) (v1EndEvent "c1")).metrics =
      { incoming := { inProgress := 0, answered := 1, missed := 1 },
        outgoing := { inProgress := 0, answered := 0, cancelled := 0 },
        missedDroppedAbandoned := 1 }) := by decide

/-! ## Claim C2 -/

/-- Claim C2 states that `{init, connected, connected, end}` produces exactly the
same final aggregate and agent counters as `{init, connected, end}`.  In the
cited code (part_000 lines 414-437 and the daily-metrics variant lines
1002-1023) the `isStartEvent` branch has no phase guard: applied from the boot
state, the duplicated sequence ends with `answered = 2` while the plain
sequence ends with `answered = 1`, so the final counters differ. -/
theorem c2_duplicate_connected_changes_counters :
    (p0Run [initEventD "c1" .IN, startEvent "c1", startEvent "c1", endEvent "c1"]).metrics.incoming.answered = 2 ∧
    (p0Run [initEventD "c1" .IN, startEvent "c1", endEvent "c1"]).metrics.incoming.answered = 1 := by decide

/-- Claim C2, amended: from the boot state, `{init, connected, connected, end}`
produces the same final live-call registry and agent directory as
`{init, connected, end}` and the same aggregate counters except that
`incoming.answered` is incremented once more (once per delivered
connected/start event): re-delivery of `connected` is not detected. -/
theorem c2_amended_duplicate_connected_extra_answered :
    (p0Run [initEventD "c1" .IN, startEvent "c1", startEvent "c1", endEvent "c1"]).metrics =
      { (p0Run [initEventD "c1" .IN, startEvent "c1", endEvent "c1"]).metrics with
        incoming := { (p0Run [initEventD "c1" .IN, startEvent "c1", endEvent "c1"]).metrics.incoming with
          answered := (p0Run [initEventD "c1" .IN, startEvent "c1", endEvent "c1"]).metrics.incoming.answered + 1 } } ∧
    (p0Run [initEventD "c1" .IN, startEvent "c1", startEvent "c1", endEvent "c1"]).liveCalls =
      (p0Run [initEventD "c1" .IN, startEvent "c1", endEvent "c1"]).liveCalls ∧
    (p0Run [initEventD "c1" .IN, startEvent "c1", startEvent "c1", endEvent "c1"]).agents =
      (p0Run [initEventD "c1" .IN, startEvent "c1", endEvent "c1"]).agents := by decide

/-! ## Claim C3 -/

/-- Claim C3 states that re-delivering any single event record twice in a row
changes no aggregate counter on the second delivery, in particular that a
duplicate `init` does not double-increment `inProgress`.  The cited
`OnVoximplantCallInit` branch of src/server.js (first document, lines 301-321)
has no existence guard: it increments `inProgress` unconditionally, so the
exact same init delivered twice leaves `incoming.inProgress = 2`. -/
theorem c3_duplicate_init_double_increments :
    (v1Step 0 v1Init (v1InitEvent "c1" "IN")).metrics.incoming.inProgress = 1 ∧
    (v1Step 1 (v1Step 0 v1Init (v1InitEvent "c1" "IN")) (v1InitEvent "c1" "IN")).metrics.incoming.inProgress = 2 := by decide

/-! ## Claim C10 -/

/-- Claim C10: in the daily-metrics variant, when the current time is outside
the 08:00-18:00 GMT+10 working-hours window (`checkIfWithinWorkHours()` false,
mirrored into `dailyMetrics.isWithinWorkHours`), processing an event that
carries a callId leaves the whole state — live-calls registry, agent directory
and every dailyMetrics counter — unchanged (src/server.js lines 937-941). -/
theorem c10_outside_work_hours_is_noop (now : Nat) (s : DState) (e : RawEvent)
    (c : String) (ph pm : Nat)
    (hc : probeTruthy e.data p0CallIdFields = some c)
    (hfl : s.dailyMetrics.isWithinWorkHours = checkIfWithinWorkHours ph pm)
    (hout : checkIfWithinWorkHours ph pm = false) :
    dStep now s e = s := by
  simp [dStep, hc, hfl, hout]

/-- Witness for C10: a concrete init event at 07:00 GMT+10 (before opening)
leaves the boot state untouched. -/
theorem c10_outside_work_hours_is_noop_witness :
    dStep 0 (dInit false) (initEventD "c1" .IN) = dInit false :=
  c10_outside_work_hours_is_noop 0 (dInit false) (initEventD "c1" .IN) "c1" 7 0
    (by decide) (by decide) (by decide)

/-! ## Claim C4 -/

/-- Claim C4 states that `{init, end}` with no connected event yields a net-zero
`inProgress` change and increments `cancelled` by exactly 1 when the call is
outbound.  In the cited code (part_000 lines 439-476, daily variant lines
1025-1052) the record update `if (direction) lc.direction = direction`
overwrites the stored direction with the direction carried by the *end* event,
which defaults to inbound when the end payload has no direction field.  For an
outbound call whose end event carries no direction, the call is tallied as
inbound: `missed` and `missedDroppedAbandoned` are incremented instead of
`cancelled`, `incoming.inProgress` is clamp-decremented at 0, and
`outgoing.inProgress` stays inflated at 1 — not net-zero. -/
theorem c4_outbound_end_without_direction_miscounted :
    (p0Run [initEventD "c1" .OUT, endEvent "c1"]).metrics =
      { incoming := { inProgress := 0, answered := 0, missed := 1 },
        outgoing := { inProgress := 1, answered := 0, cancelled := 0 },
        missedDroppedAbandoned := 1 } := by decide

/-! ## Claim C6 -/

/-- Claim C6 states that an end event for a callId with no record is a no-op on
all state, in particular with no `inProgress` decrement.  The cited
`OnVoximplantCallEnd` branch of src/server.js (first document, lines 348-356)
does the opposite on purpose: "If we never saw init, still try to clamp".
From the reachable state holding one live inbound call, an end for the unknown
callId `ghost` drops `incoming.inProgress` from 1 to 0 while the live call
stays registered. -/
theorem c6_ghost_end_clamps_inProgress :
    ((v1Step 0 v1Init (v1InitEvent "c1" "IN")).metrics.incoming.inProgress = 1) ∧
    ((v1Step 1 (v1Step 0 v1Init (v1InitEvent "c1" "IN")) (v1EndEvent "ghost")).metrics.incoming.inProgress = 0) ∧
    (alGet (v1Step 1 (v1Step 0 v1Init (v1InitEvent "c1" "IN")) (v1EndEvent "ghost")).liveCalls "c1" ≠ none) := by decide

/-! ## Claim C7 -/

/-- Claim C7 states that an event in which no callId candidate field is
non-empty is dropped with no state change.  The cited part_001 handler
(line 231) instead substitutes the synthetic callId `unknown-<Date.now()>`
and processes the event: an init without any callId field creates a live-call
record under the synthetic key and increments `incoming.inProgress`. -/
theorem c7_missing_callId_still_processed :
    ((p1Step 5 p1Init [("event", "OnVoximplantCallInit")]).metrics.incoming.inProgress = 1) ∧
    (alGet (p1Step 5 p1Init [("event", "OnVoximplantCallInit")]).liveCalls "unknown-5" ≠ none) := by decide

/-! ## Claim C8 -/

/-- Claim C8 states that a periodic stale-call reaper force-closes every record
older than the configured maximum lifetime (example: 30 minutes), so that no
record stays in the registry forever.  No such sweep exists anywhere in the
repository — the only timers are log heartbeats, the daily-metrics reset and
the work-hours flag refresh, none of which touch `liveCalls` — and the event
handler removes a record only on an end-named event.  Concretely: a call
created at `Date.now() = 0` with no terminal event is still registered, and
`inProgress` still inflated, after an unrelated event arrives 31 minutes
(1860000 ms) later. -/
theorem c8_stale_record_never_reaped :
    (alGet (p0RunFrom (p0Step 0 p0Init (initEventD "c1" .IN))
        [(1860000, initEventD "c2" .IN)]).liveCalls "c1" ≠ none) ∧
    ((p0RunFrom (p0Step 0 p0Init (initEventD "c1" .IN))
        [(1860000, initEventD "c2" .IN)]).metrics.incoming.inProgress = 2) := by decide

/-! ## Claim C9 -/

/-- Claim C9 states that after every event, an agent referenced by at least one
live call has `onCallNow = true` — including when one agent is referenced by
two live calls and only one of them ends.  In the cited code (part_000 lines
394-403, daily variant lines 986-995) `onCallNow` is set per event
(`a.onCallNow = !isEndEvent(eventName)`), never recomputed over the registry:
after agent `a1` takes calls `c1` and `c2` and only `c1` ends, `c2` is still
live and references `a1`, yet `a1.onCallNow` is `false`. -/
theorem c9_shared_agent_cleared_while_still_on_call :
    ((alGet (p0Run [initEventAgent "c1" "IN" "a1", initEventAgent "c2" "IN" "a1",
        endEvent "c1"]).liveCalls "c2").map P0Call.agentId = some (some "a1")) ∧
    ((alGet (p0Run [initEventAgent "c1" "IN" "a1", initEventAgent "c2" "IN" "a1",
        endEvent "c1"]).agents "a1").map P0Agent.onCallNow = some false) := by decide

/-- Claim C9, amended: `onCallNow` is a per-event flag, not a registry-derived
one.  After part_000 processes any event that resolves a callId and carries an
agent id `a`, agent `a`'s `onCallNow` equals `!isEndEvent(eventName)` —
regardless of how many other live calls still reference `a`. -/
theorem c9_amended_onCallNow_tracks_last_event (now : Nat) (s : P0State) (e : RawEvent)
    (c a : String)
    (hc : probeTruthy e.data p0CallIdFields = some c)
    (ha : probeTrim e.data p0AgentIdFields = some a) :
    (alGet (p0Step now s e).agents a).map P0Agent.onCallNow =
      some (!(isEndEvent e.name)) := by
  cases h : alGet s.liveCalls c with
  | none =>
    by_cases hend : isEndEvent e.name <;>
      simp [p0Step, hc, ha, h, hend, p0AgentSync_onCallNow, p0ClearOnCall_onCallNow,
        apply_ite P0Call.agentId, apply_ite P0Call.agentName]
  | some lc =>
    by_cases hend : isEndEvent e.name <;>
      simp [p0Step, hc, ha, h, hend, p0AgentSync_onCallNow, p0ClearOnCall_onCallNow,
        apply_ite P0Call.agentId, apply_ite P0Call.agentName]

/-- Witness for the amended C9 at a concrete init delivery. -/
theorem c9_amended_onCallNow_tracks_last_event_witness :
    (alGet (p0Step 0 p0Init (initEventAgent "c1" "IN" "a1")).agents "a1").map P0Agent.onCallNow =
      some (!(isEndEvent (initEventAgent "c1" "IN" "a1").name)) :=
  c9_amended_onCallNow_tracks_last_event 0 p0Init (initEventAgent "c1" "IN" "a1") "c1" "a1"
    (by decide) (by decide)

/-- Claim C3, amended: in part_000 (creation guard `if (!lc)`, lines 360-377)
the second delivery of an exact duplicate init event leaves the aggregate
counters unchanged: the record already exists, so the creation bump is skipped
and no other branch of an init event touches the metrics.  The same does not
hold for the `OnVoximplantCallInit` branch of the first server.js document
(which bumps `inProgress` unconditionally) nor for duplicated connected/start
events (which re-increment `answered`). -/
theorem c3_amended_duplicate_init_frozen_in_p0 (now1 now2 : Nat) (s : P0State)
    (e : RawEvent) (c : String)
    (hc : probeTruthy e.data p0CallIdFields = some c)
    (hinit : isInitEvent e.name = true)
    (hstart : isStartEvent e.name = false)
    (hend : isEndEvent e.name = false) :
    (p0Step now2 (p0Step now1 s e) e).metrics = (p0Step now1 s e).metrics :=
  p0Step_metrics_frozen now2 (p0Step now1 s e) e c hc
    (p0Step_registers now1 s e c hc hend) hstart hend

/-- Witness for the amended C3 at a concrete duplicated init delivery. -/
theorem c3_amended_duplicate_init_frozen_in_p0_witness :
    (p0Step 1 (p0Step 0 p0Init (initEventD "c1" .IN)) (initEventD "c1" .IN)).metrics =
      (p0Step 0 p0Init (initEventD "c1" .IN)).metrics :=
  c3_amended_duplicate_init_frozen_in_p0 0 1 p0Init (initEventD "c1" .IN) "c1"
    (by decide) (by decide) (by decide) (by decide)

/-- Claim C4, amended: on part_000, `{init, end}` with no connected event
yields net-zero `inProgress`, exactly one `missed` (+`missedDroppedAbandoned`)
for an inbound call or exactly one `cancelled` for an outbound call, and
removes the record — provided the end event carries the call's direction
(inbound calls also work with a direction-less end event, since absent
direction defaults to inbound).  The direction used for classification is the
one carried by the end event, which overwrites the record's stored direction;
the unamended claim fails for an outbound call whose end event lacks the
direction field. -/
theorem c4_amended_init_end_with_matching_direction (t1 t2 : Nat) (s : P0State)
    (c : String) (d : Dir)
    (hc : ¬ c = "") (hnone : alGet s.liveCalls c = none)
    (hin : 0 ≤ s.metrics.incoming.inProgress) (hout : 0 ≤ s.metrics.outgoing.inProgress) :
    ((initEndRun t1 t2 s c d).metrics.incoming.inProgress = s.metrics.incoming.inProgress ∧
     (initEndRun t1 t2 s c d).metrics.outgoing.inProgress = s.metrics.outgoing.inProgress) ∧
    (d = .IN → (initEndRun t1 t2 s c d).metrics.incoming.missed = s.metrics.incoming.missed + 1 ∧
       (initEndRun t1 t2 s c d).metrics.missedDroppedAbandoned = s.metrics.missedDroppedAbandoned + 1 ∧
       (initEndRun t1 t2 s c d).metrics.outgoing.cancelled = s.metrics.outgoing.cancelled) ∧
    (d = .OUT → (initEndRun t1 t2 s c d).metrics.outgoing.cancelled = s.metrics.outgoing.cancelled + 1 ∧
       (initEndRun t1 t2 s c d).metrics.incoming.missed = s.metrics.incoming.missed ∧
       (initEndRun t1 t2 s c d).metrics.missedDroppedAbandoned = s.metrics.missedDroppedAbandoned) ∧
    (initEndRun t1 t2 s c d).metrics.incoming.answered = s.metrics.incoming.answered ∧
    (initEndRun t1 t2 s c d).metrics.outgoing.answered = s.metrics.outgoing.answered ∧
    alGet (initEndRun t1 t2 s c d).liveCalls c = none := by
  have h1 := p0Step_init_new t1 s c d hc hnone
  have h2 := p0Step_end_existing t2 (p0Step t1 s (initEventD c d)) c
    { callId := c, direction := d, fromNum := "", toNum := "", status := "RINGING",
      wasAnswered := false, agentId := none, agentName := "", startedAt := t1 } d hc
    (by rw [h1]; exact alGet_alSet_self _ _ _) rfl rfl
  unfold initEndRun
  rw [h2, h1]
  cases d <;>
    simp [missTally, clampInProgress, bumpInProgress, clampDown, alGet_alDelete_self] <;>
    omega

/-- Witness for the amended C4: an outbound `{init, end}` pair whose end event
carries `DIRECTION = OUT`, applied at the boot state. -/
theorem c4_amended_init_end_with_matching_direction_witness :
    ((initEndRun 0 1 p0Init "c1" .OUT).metrics.incoming.inProgress = p0Init.metrics.incoming.inProgress ∧
     (initEndRun 0 1 p0Init "c1" .OUT).metrics.outgoing.inProgress = p0Init.metrics.outgoing.inProgress) ∧
    (Dir.OUT = .IN → (initEndRun 0 1 p0Init "c1" .OUT).metrics.incoming.missed = p0Init.metrics.incoming.missed + 1 ∧
       (initEndRun 0 1 p0Init "c1" .OUT).metrics.missedDroppedAbandoned = p0Init.metrics.missedDroppedAbandoned + 1 ∧
       (initEndRun 0 1 p0Init "c1" .OUT).metrics.outgoing.cancelled = p0Init.metrics.outgoing.cancelled) ∧
    (Dir.OUT = .OUT → (initEndRun 0 1 p0Init "c1" .OUT).metrics.outgoing.cancelled = p0Init.metrics.outgoing.cancelled + 1 ∧
       (initEndRun 0 1 p0Init "c1" .OUT).metrics.incoming.missed = p0Init.metrics.incoming.missed ∧
       (initEndRun 0 1 p0Init "c1" .OUT).metrics.missedDroppedAbandoned = p0Init.metrics.missedDroppedAbandoned) ∧
    (initEndRun 0 1 p0Init "c1" .OUT).metrics.incoming.answered = p0Init.metrics.incoming.answered ∧
    (initEndRun 0 1 p0Init "c1" .OUT).metrics.outgoing.answered = p0Init.metrics.outgoing.answered ∧
    alGet (initEndRun 0 1 p0Init "c1" .OUT).liveCalls "c1" = none :=
  c4_amended_init_end_with_matching_direction 0 1 p0Init "c1" .OUT
    (by decide) (by decide) (by decide) (by decide)

/-! ## Claim C5 -/

/-- Claim C5: for every sequence of deliveries applied from the boot state, the
per-direction `inProgress` gauges never go negative — every decrement runs
through `clampDown` (`Math.max(0, x - 1)`).  Proved for the two variants the
claim cites `clampDown` from: the first server.js document and part_001. -/
theorem c5_inProgress_never_negative (es : List (Nat × RawEvent))
    (bs : List (Nat × List (String × String))) :
    (0 ≤ (v1Run es).metrics.incoming.inProgress ∧
     0 ≤ (v1Run es).metrics.outgoing.inProgress) ∧
    (0 ≤ (p1Run bs).metrics.incoming.inProgress ∧
     0 ≤ (p1Run bs).metrics.outgoing.inProgress) := by
  constructor
  · have main : ∀ (l : List (Nat × RawEvent)) (s : V1State),
        0 ≤ s.metrics.incoming.inProgress → 0 ≤ s.metrics.outgoing.inProgress →
        0 ≤ (l.foldl (fun t p => v1Step p.1 t p.2) s).metrics.incoming.inProgress ∧
          0 ≤ (l.foldl (fun t p => v1Step p.1 t p.2) s).metrics.outgoing.inProgress := by
      intro l
      induction l with
      | nil => intro s hs1 hs2; exact ⟨hs1, hs2⟩
      | cons p rest ih =>
        intro s hs1 hs2
        have h := v1Step_inv p.1 s p.2 hs1 hs2
        simpa using ih (v1Step p.1 s p.2) h.1 h.2
    simpa [v1Run] using main es v1Init (by decide) (by decide)
  · have main : ∀ (l : List (Nat × List (String × String))) (s : P1State),
        0 ≤ s.metrics.incoming.inProgress → 0 ≤ s.metrics.outgoing.inProgress →
        0 ≤ (l.foldl (fun t p => p1Step p.1 t p.2) s).metrics.incoming.inProgress ∧
          0 ≤ (l.foldl (fun t p => p1Step p.1 t p.2) s).metrics.outgoing.inProgress := by
      intro l
      induction l with
      | nil => intro s hs1 hs2; exact ⟨hs1, hs2⟩
      | cons p rest ih =>
        intro s hs1 hs2
        have h := p1Step_inv p.1 s p.2 hs1 hs2
        simpa using ih (p1Step p.1 s p.2) h.1 h.2
    simpa [p1Run] using main bs p1Init (by decide) (by decide)

/-- Claim C6, amended: an end event for an unknown callId is a complete no-op
in part_001 (early `if (!lc) return`), while in the first server.js document
it changes exactly one thing: a clamped decrement of the `inProgress` gauge of
the direction carried by the event (defaulting inbound); the registry, the
agent directory and every other counter stay untouched, and no exception is
raised (the embedded handlers are total functions). -/
theorem c6_amended_ghost_end_effects (now1 : Nat) (s1 : P1State)
    (body : List (String × String))
    (hev : probeTruthy body p1EventFields = some "OnVoximplantCallEnd")
    (hghost1 : alGet s1.liveCalls (p1ResolvedCallId body now1) = none)
    (now2 : Nat) (s2 : V1State) (e : RawEvent) (c : String)
    (hname : e.name = "OnVoximplantCallEnd")
    (hc : probeTruthy e.data v1CallIdFields = some c)
    (hghost2 : alGet s2.liveCalls c = none) :
    p1Step now1 s1 body = s1 ∧
    v1Step now2 s2 e =
      { s2 with
        metrics := clampInProgress s2.metrics (jsDirection ((probeTruthy e.data v1DirectionFields).getD "")) } := by
  constructor
  · simp [p1Step, hev, hghost1]
  · simp [v1Step, hname, hc, hghost2]

/-- Witness for the amended C6: concrete ghost-end deliveries against the boot
states of part_001 and of the first server.js document. -/
theorem c6_amended_ghost_end_effects_witness :
    p1Step 0 p1Init [("event", "OnVoximplantCallEnd"), ("CALL_ID", "ghost")] = p1Init ∧
    v1Step 0 v1Init (v1EndEvent "ghost") =
      { v1Init with
        metrics := clampInProgress v1Init.metrics (jsDirection ((probeTruthy (v1EndEvent "ghost").data v1DirectionFields).getD "")) } :=
  c6_amended_ghost_end_effects 0 p1Init [("event", "OnVoximplantCallEnd"), ("CALL_ID", "ghost")]
    (by decide) (by decide) 0 v1Init (v1EndEvent "ghost") "ghost" rfl (by decide) (by decide)

/-- Claim C7, amended: in the first server.js document, in part_000 and in the
daily-metrics variant, an event in which no callId candidate field is
non-empty is dropped before any state mutation — the whole state is returned
unchanged.  (part_001 is the exception refuted in the counterexample: it
fabricates `unknown-<Date.now()>` instead.) -/
theorem c7_amended_missing_callId_dropped (now1 now2 now3 : Nat)
    (s1 : V1State) (e1 : RawEvent) (s2 : P0State) (e2 : RawEvent)
    (s3 : DState) (e3 : RawEvent)
    (h1 : probeTruthy e1.data v1CallIdFields = none)
    (h2 : probeTruthy e2.data p0CallIdFields = none)
    (h3 : probeTruthy e3.data p0CallIdFields = none) :
    v1Step now1 s1 e1 = s1 ∧ p0Step now2 s2 e2 = s2 ∧ dStep now3 s3 e3 = s3 := by
  refine ⟨?_, ?_, ?_⟩
  · simp [v1Step, h1]
  · simp [p0Step, h2]
  · simp [dStep, h3]

/-- Witness for the amended C7: a callId-less init delivery against each of the
three boot states. -/
theorem c7_amended_missing_callId_dropped_witness :
    v1Step 0 v1Init { name := "OnVoximplantCallInit", data := [] } = v1Init ∧
    p0Step 0 p0Init { name := "ONVOXIMPLANTCALLINIT", data := [] } = p0Init ∧
    dStep 0 (dInit true) { name := "ONVOXIMPLANTCALLINIT", data := [] } = dInit true :=
  c7_amended_missing_callId_dropped 0 0 0 v1Init { name := "OnVoximplantCallInit", data := [] }
    p0Init { name := "ONVOXIMPLANTCALLINIT", data := [] }
    (dInit true) { name := "ONVOXIMPLANTCALLINIT", data := [] }
    (by decide) (by decide) (by decide)

/-- Claim C8, amended: there is no reaper; the only transition that removes a
part_000 call record is an end-named event resolving to that record's callId.
A registered record survives any sequence of deliveries, however long and
however much `Date.now()` advances, as long as none of them is an end event
for its callId — registry entries and their `inProgress` contribution are
never self-healed by time. -/
theorem c8_amended_record_removed_only_by_end (es : List (Nat × RawEvent))
    (s : P0State) (c : String)
    (hmem : alGet s.liveCalls c ≠ none)
    (hnoend : ∀ p ∈ es, probeTruthy p.2.data p0CallIdFields = some c →
      isEndEvent p.2.name = false) :
    alGet (p0RunFrom s es).liveCalls c ≠ none := by
  induction es generalizing s with
  | nil => simpa [p0RunFrom] using hmem
  | cons p rest ih =>
    have h1 : alGet (p0Step p.1 s p.2).liveCalls c ≠ none :=
      p0Step_keeps_member p.1 s p.2 c hmem (hnoend p (by simp))
    have h2 : ∀ q ∈ rest, probeTruthy q.2.data p0CallIdFields = some c →
        isEndEvent q.2.name = false :=
      fun q hq => hnoend q (by simp [hq])
    simpa [p0RunFrom] using ih (p0Step p.1 s p.2) h1 h2

/-- Witness for the amended C8: the 31-minutes-later scenario of the
counterexample, fed through the general persistence theorem. -/
theorem c8_amended_record_removed_only_by_end_witness :
    alGet (p0RunFrom (p0Step 0 p0Init (initEventD "c1" .IN))
      [(1860000, initEventD "c2" .IN)]).liveCalls "c1" ≠ none :=
  c8_amended_record_removed_only_by_end [(1860000, initEventD "c2" .IN)]
    (p0Step 0 p0Init (initEventD "c1" .IN)) "c1" (by decide) (by decide)

end Wallboard
